import Mathlib

/-!
Verification of `consensus/safety-rules/src/persistent_safety_storage.rs`.

The module under study is `PersistentSafetyStorage`, the persistence boundary
for a consensus participant's safety-critical state.  The concrete secure
storage layer (`libra_secure_storage`: `Storage`, `InMemoryStorage`,
`CachedStorage`, `Value`, `Error`), the identifier type `Author` and the
`Waypoint` type live outside this crate; they are modelled here from the
specification of the interface they present (store contract, closed error
set, string round-trip encodings), while everything in
`persistent_safety_storage.rs` is translated directly from that source.
-/

namespace SafetyRules

/-- Lookup in an association list with string keys (the model of the
key/value store's map). -/
def kvGet {α : Type} : List (String × α) → String → Option α
  | [], _ => none
  | (k, v) :: t, name => if name = k then some v else kvGet t name

/-- Update/insert in an association list with string keys: replaces the
first binding of the key, otherwise appends. -/
def kvSet {α : Type} : List (String × α) → String → α → List (String × α)
  | [], name, v => [(name, v)]
  | (k, w) :: t, name, v =>
    if name = k then (name, v) :: t else (k, w) :: kvSet t name v

/-- Modelled from the spec: decimal digit characters of the canonical text
representation used for string-encoded records. -/
def digitChr : Nat → Char
  | 0 => '0'
  | 1 => '1'
  | 2 => '2'
  | 3 => '3'
  | 4 => '4'
  | 5 => '5'
  | 6 => '6'
  | 7 => '7'
  | 8 => '8'
  | _ => '9'

/-- Modelled from the spec: reading one decimal digit back from a character,
failing on anything that is not a digit. -/
def charToDigit (c : Char) : Option Nat :=
  if c = '0' then some 0
  else if c = '1' then some 1
  else if c = '2' then some 2
  else if c = '3' then some 3
  else if c = '4' then some 4
  else if c = '5' then some 5
  else if c = '6' then some 6
  else if c = '7' then some 7
  else if c = '8' then some 8
  else if c = '9' then some 9
  else none

/-- Big-endian decimal digits of a number, with explicit fuel so the
definition reduces by evaluation; `natToDecimal` always supplies enough. -/
def toDecimalAux : Nat → Nat → List Char
  | 0, _ => []
  | fuel + 1, n =>
    if n = 0 then [] else toDecimalAux fuel (n / 10) ++ [digitChr (n % 10)]

/-- Modelled from the spec: the canonical decimal text form of a number. -/
def natToDecimal (n : Nat) : String :=
  if n = 0 then "0" else String.mk (toDecimalAux (n + 1) n)

/-- Horner-scheme accumulator pass over decimal digit characters, failing on
the first non-digit. -/
def parseDigitsAux : List Char → Nat → Option Nat
  | [], acc => some acc
  | c :: cs, acc =>
    match charToDigit c with
    | some d => parseDigitsAux cs (acc * 10 + d)
    | none => none

/-- Modelled from the spec: parsing a canonical decimal text form back; the
empty string is rejected. -/
def parseDecimal (s : String) : Option Nat :=
  match s.data with
  | [] => none
  | l => parseDigitsAux l 0

/-- Modelled from the spec: the last vote a participant cast.  Its contents
are opaque to this module (it is only stored and retrieved), so it is
modelled as a record with an abstract payload. -/
structure Vote where
  payload : Nat
deriving DecidableEq, Repr

/-- The voting-progress record (`consensus_types::safety_data::SafetyData`):
`{epoch: u64, last_voted_round: u64, preferred_round: u64, last_vote}`.
The `u64` fields are modelled as `Nat`; the module performs no arithmetic
on them apart from the `as i64` cast in the metrics sink. -/
structure SafetyData where
  epoch : Nat
  last_voted_round : Nat
  preferred_round : Nat
  last_vote : Option Vote
deriving DecidableEq, Repr

/-- Constructor `SafetyData::new(epoch, last_voted_round, preferred_round,
last_vote)`. -/
def SafetyData.new (epoch last_voted_round preferred_round : Nat)
    (last_vote : Option Vote) : SafetyData :=
  ⟨epoch, last_voted_round, preferred_round, last_vote⟩

/-- Modelled from the spec: `Author`, the validator's on-chain identifier,
string-encoded via a canonical text representation. -/
structure Author where
  addr : Nat
deriving DecidableEq, Repr

/-- Canonical text form of an author identifier. -/
def Author.canonical (a : Author) : String :=
  natToDecimal a.addr

/-- Source `FromStr` for authors: parse the canonical text form. -/
def Author.fromStr (s : String) : Option Author :=
  (parseDecimal s).map Author.mk

/-- Modelled from the spec: `Waypoint`, a trust-anchor digest bounding
acceptable ledger history, string-encoded via a canonical text
representation. -/
structure Waypoint where
  digest : Nat
deriving DecidableEq, Repr

/-- Source `Waypoint::default()`. -/
def Waypoint.default : Waypoint := ⟨0⟩

/-- Canonical text form of a waypoint. -/
def Waypoint.canonical (w : Waypoint) : String :=
  natToDecimal w.digest

/-- Source `Waypoint::from_str`: parse the canonical text form. -/
def Waypoint.from_str (s : String) : Option Waypoint :=
  (parseDecimal s).map Waypoint.mk

/-- An Ed25519 private key; the cryptography itself is out of scope, so the
key is opaque data the store holds. -/
structure Ed25519PrivateKey where
  key : Nat
deriving DecidableEq, Repr

/-- Modelled from the spec: the closed variant type of storable values —
strings and the structured safety record. -/
inductive Value where
  | string (s : String)
  | safetyData (d : SafetyData)
deriving DecidableEq, Repr

/-- Modelled from the spec: the store's closed error set — the distinguished
key-already-exists error used by the idempotency check, the not-found
error, the value-variant mismatch, parse errors, and uniform backend
(I/O, network, permission) errors. -/
inductive Error where
  | keyAlreadyExists (name : String)
  | keyNotSet (name : String)
  | unexpectedValueType
  | parseError (what : String)
  | backendError
deriving DecidableEq, Repr

/-- Fallible narrowing of a stored value to a string
(`Value::string()`). -/
def Value.string? : Value → Except Error String
  | .string s => .ok s
  | _ => .error .unexpectedValueType

/-- Fallible narrowing of a stored value to the safety record
(`Value::safety_data()`). -/
def Value.safety_data? : Value → Except Error SafetyData
  | .safetyData d => .ok d
  | _ => .error .unexpectedValueType

/-- The record a `get` returns (`GetResponse { value, .. }`). -/
structure GetResponse where
  value : Value
deriving DecidableEq, Repr

/-- One observable write performed against a backend, kept in a trace so
write ordering can be stated. -/
inductive WriteOp where
  | importKey (name : String)
  | setValue (name : String) (v : Value)
deriving DecidableEq, Repr

/-- Modelled from the spec: the durable state of a key/value-plus-crypto
backend — named values, named private keys (import-once), and the trace of
writes it has accepted. -/
structure KVState where
  data : List (String × Value)
  keys : List (String × Ed25519PrivateKey)
  trace : List WriteOp
deriving DecidableEq, Repr

/-- A fresh, empty backend state (`InMemoryStorage::new()`). -/
def KVState.new : KVState := ⟨[], [], []⟩

/-- Modelled from the spec: the closed set of interchangeable backends —
an in-memory map for tests, a remote/secret-manager backend whose I/O can
be unavailable, and the cache decorator wrapping an inner store. -/
inductive Storage where
  | inMemoryStorage (s : KVState)
  | remoteStorage (available : Bool) (s : KVState)
  | cachedStorage (inner : Storage) (cache : List (String × Value))
deriving DecidableEq, Repr

/-- Source `CachedStorage::new`: wrap a store with an empty read cache. -/
def CachedStorage.new (inner : Storage) : Storage :=
  Storage.cachedStorage inner []

/-- Source `get(name)` of the backend state: the stored value or a not-found
error. -/
def KVState.get (s : KVState) (name : String) : Except Error GetResponse :=
  match kvGet s.data name with
  | some v => .ok ⟨v⟩
  | none => .error (.keyNotSet name)

/-- Source `set(name, value)` of the backend state: replace and record the
write. -/
def KVState.set (s : KVState) (name : String) (v : Value) : KVState :=
  { s with data := kvSet s.data name v, trace := s.trace ++ [.setValue name v] }

/-- Source `import_private_key(name, key)` of the backend state: fails with the
distinguished error if a key already exists under this name. -/
def KVState.importPrivateKey (s : KVState) (name : String)
    (k : Ed25519PrivateKey) : Except Error KVState :=
  match kvGet s.keys name with
  | some _ => .error (.keyAlreadyExists name)
  | none => .ok { s with keys := kvSet s.keys name k,
                         trace := s.trace ++ [.importKey name] }

/-- Source `Storage::get`: dispatch to the backend; the cache decorator serves a
hit from its cache and otherwise delegates (memoization of the miss is a
performance detail with no observable effect on values and is not
modelled). An unavailable remote backend fails uniformly. -/
def Storage.get : Storage → String → Except Error GetResponse
  | .inMemoryStorage s, name => s.get name
  | .remoteStorage available s, name =>
    if available then s.get name else .error .backendError
  | .cachedStorage inner cache, name =>
    match kvGet cache name with
    | some v => .ok ⟨v⟩
    | none => inner.get name

/-- Source `Storage::set`: dispatch to the backend; the cache decorator writes
through and updates its cache entry so no stale value is observable. -/
def Storage.set : Storage → String → Value → Except Error Storage
  | .inMemoryStorage s, name, v => .ok (.inMemoryStorage (s.set name v))
  | .remoteStorage available s, name, v =>
    if available then .ok (.remoteStorage available (s.set name v))
    else .error .backendError
  | .cachedStorage inner cache, name, v =>
    (inner.set name v).map (fun inner' =>
      .cachedStorage inner' (kvSet cache name v))

/-- Source `Storage::import_private_key`: dispatch to the backend; the cache
decorator delegates (keys are not value-cached). -/
def Storage.importPrivateKey : Storage → String → Ed25519PrivateKey →
    Except Error Storage
  | .inMemoryStorage s, name, k =>
    (s.importPrivateKey name k).map .inMemoryStorage
  | .remoteStorage available s, name, k =>
    if available then (s.importPrivateKey name k).map (.remoteStorage available)
    else .error .backendError
  | .cachedStorage inner cache, name, k =>
    (inner.importPrivateKey name k).map (fun inner' =>
      .cachedStorage inner' cache)

/-- The trace of writes the underlying durable backend has accepted. -/
def Storage.trace : Storage → List WriteOp
  | .inMemoryStorage s => s.trace
  | .remoteStorage _ s => s.trace
  | .cachedStorage inner _ => inner.trace

/-- Modelled from the spec: the observability sink `counters` as injected
state — a map from gauge names to their last reported value. -/
structure Counters where
  state : List (String × Int)
deriving DecidableEq, Repr

/-- Source `counters::set_state(key, value)`. -/
def Counters.set_state (c : Counters) (k : String) (v : Int) : Counters :=
  ⟨kvSet c.state k v⟩

/-- The `as i64` cast applied to a `u64` metric value. -/
def i64OfU64 (n : Nat) : Int :=
  let m : Nat := n % 2 ^ 64
  if m < 2 ^ 63 then (m : Int) else (m : Int) - 2 ^ 64

/-- Record name for the consensus key (`libra_global_constants`). -/
def CONSENSUS_KEY : String := "consensus-key"

/-- Record name for the execution key. -/
def EXECUTION_KEY : String := "execution-key"

/-- Record name for the safety record. -/
def SAFETY_DATA : String := "safety-data"

/-- Record name for the owner account. -/
def OWNER_ACCOUNT : String := "owner-account"

/-- Record name for the waypoint. -/
def WAYPOINT : String := "waypoint"

/-- The component under specification: owns one store instance
(`struct PersistentSafetyStorage { internal_store: Storage }`). -/
structure PersistentSafetyStorage where
  internal_store : Storage
deriving DecidableEq, Repr

namespace PersistentSafetyStorage

/-- Source `PersistentSafetyStorage::new(internal_store)`: wrap an existing,
already-initialized store as-is. -/
def new (internal_store : Storage) : PersistentSafetyStorage :=
  ⟨internal_store⟩

/-- Source `PersistentSafetyStorage::initialize_`: attempt to import the consensus
key; on the distinguished key-already-exists error treat the store as
already initialized and return successfully with no further writes;
otherwise import the execution key, then write the initial safety record,
the owner account and the waypoint, propagating any failure.  State is
threaded explicitly: on an error the store is whatever the failed backend
call left behind (the backends here leave it unchanged). -/
def initialise_ (internal_store : Storage) (author : Author)
    (consensus_private_key execution_private_key : Ed25519PrivateKey)
    (waypoint : Waypoint) : Except Error Storage :=
  let result := internal_store.importPrivateKey CONSENSUS_KEY consensus_private_key
  match result with
  | .error (.keyAlreadyExists _) => .ok internal_store
  | _ =>
    let store₁ := match result with
      | .ok s => s
      | .error _ => internal_store
    do
      let store₂ ← store₁.importPrivateKey EXECUTION_KEY execution_private_key
      let store₃ ← store₂.set SAFETY_DATA
        (Value.safetyData (SafetyData.new 1 0 0 none))
      let store₄ ← store₃.set OWNER_ACCOUNT (Value.string author.canonical)
      let store₅ ← store₄.set WAYPOINT (Value.string waypoint.canonical)
      return store₅

/-- Source `PersistentSafetyStorage::initialize`: run `initialize_` and `expect`
success — a failure aborts the process, modelled as `none`. -/
def initialise (internal_store : Storage) (author : Author)
    (consensus_private_key execution_private_key : Ed25519PrivateKey)
    (waypoint : Waypoint) : Option PersistentSafetyStorage :=
  match initialise_ internal_store author consensus_private_key
      execution_private_key waypoint with
  | .ok s => some ⟨s⟩
  | .error _ => none

/-- Source `PersistentSafetyStorage::in_memory`: initialize a fresh in-memory
backend with a random author and the default waypoint.  `Author::random()`
is modelled by passing the sampled author explicitly. -/
def in_memory (random_author : Author)
    (consensus_private_key execution_private_key : Ed25519PrivateKey) :
    Option PersistentSafetyStorage :=
  initialise (Storage.inMemoryStorage KVState.new) random_author
    consensus_private_key execution_private_key Waypoint.default

/-- Source `PersistentSafetyStorage::into_cached`: wrap the store in the cache
decorator, unless it already is one, in which case the existing single
cache layer is returned unchanged. -/
def into_cached (self : PersistentSafetyStorage) : PersistentSafetyStorage :=
  match self.internal_store with
  | .cachedStorage inner cache => ⟨.cachedStorage inner cache⟩
  | .inMemoryStorage s => ⟨CachedStorage.new (.inMemoryStorage s)⟩
  | .remoteStorage available s => ⟨CachedStorage.new (.remoteStorage available s)⟩

/-- Source `author()`: read the owner-account string and parse it. -/
def author (self : PersistentSafetyStorage) : Except Error Author := do
  let res ← self.internal_store.get OWNER_ACCOUNT
  let res ← res.value.string?
  match Author.fromStr res with
  | some a => .ok a
  | none => .error (.parseError "author")

/-- Source `safety_data()`: read the safety record and narrow it to the structured
variant. -/
def safety_data (self : PersistentSafetyStorage) : Except Error SafetyData :=
  (self.internal_store.get SAFETY_DATA).bind (fun r => r.value.safety_data?)

/-- Source `set_safety_data(data)`: report the new epoch/round values to the
metrics sink, then replace the safety record; the store error, if any, is
returned as-is. -/
def set_safety_data (self : PersistentSafetyStorage) (c : Counters)
    (data : SafetyData) : Counters × Except Error PersistentSafetyStorage :=
  let c := c.set_state "epoch" (i64OfU64 data.epoch)
  let c := c.set_state "last_voted_round" (i64OfU64 data.last_voted_round)
  let c := c.set_state "preferred_round" (i64OfU64 data.preferred_round)
  match self.internal_store.set SAFETY_DATA (Value.safetyData data) with
  | .ok s => (c, .ok ⟨s⟩)
  | .error e => (c, .error e)

/-- Source `waypoint()`: read the waypoint string and parse the canonical text
form, wrapping a parse failure in a descriptive error. -/
def waypoint (self : PersistentSafetyStorage) : Except Error Waypoint := do
  let w ← (self.internal_store.get WAYPOINT).bind (fun r => r.value.string?)
  match Waypoint.from_str w with
  | some wp => .ok wp
  | none => .error (.parseError "waypoint")

/-- Source `set_waypoint(waypoint)`: store the canonical string form (the audit
log entry emitted after a successful write is not an observable of this
model). -/
def set_waypoint (self : PersistentSafetyStorage) (waypoint : Waypoint) :
    Except Error PersistentSafetyStorage :=
  (self.internal_store.set WAYPOINT (Value.string waypoint.canonical)).map
    (fun s => ⟨s⟩)

end PersistentSafetyStorage

/-- A fresh in-memory backend, as `in_memory` builds it. -/
def freshStore : Storage := Storage.inMemoryStorage KVState.new

/-- The storage `initialise` produces from a fresh in-memory backend:
both keys imported and the three value records written, in order. -/
def freshInit (a : Author) (ck ek : Ed25519PrivateKey) (w : Waypoint) :
    PersistentSafetyStorage :=
  ⟨Storage.inMemoryStorage
    ⟨[(SAFETY_DATA, Value.safetyData (SafetyData.new 1 0 0 none)),
      (OWNER_ACCOUNT, Value.string a.canonical),
      (WAYPOINT, Value.string w.canonical)],
     [(CONSENSUS_KEY, ck), (EXECUTION_KEY, ek)],
     [WriteOp.importKey CONSENSUS_KEY, WriteOp.importKey EXECUTION_KEY,
      WriteOp.setValue SAFETY_DATA (Value.safetyData (SafetyData.new 1 0 0 none)),
      WriteOp.setValue OWNER_ACCOUNT (Value.string a.canonical),
      WriteOp.setValue WAYPOINT (Value.string w.canonical)]⟩⟩

/-- A remote backend whose I/O is failing: every store operation returns
the backend error. -/
def unavailableStore : PersistentSafetyStorage :=
  ⟨Storage.remoteStorage false KVState.new⟩

/-- An already-initialized backend: the consensus key is present, so a
re-import hits the distinguished key-already-exists error. -/
def preInitStore : Storage :=
  Storage.inMemoryStorage ⟨[], [(CONSENSUS_KEY, ⟨7⟩)], []⟩

/-- The storage obtained from the initialized sample store after replacing
the safety record with `{9, 8, 1, none}`. -/
def afterSafetySet : PersistentSafetyStorage :=
  ⟨Storage.inMemoryStorage
    ⟨[(SAFETY_DATA, Value.safetyData (SafetyData.new 9 8 1 none)),
      (OWNER_ACCOUNT, Value.string ((⟨5⟩ : Author).canonical)),
      (WAYPOINT, Value.string ((⟨3⟩ : Waypoint).canonical))],
     [(CONSENSUS_KEY, ⟨1⟩), (EXECUTION_KEY, ⟨2⟩)],
     [WriteOp.importKey CONSENSUS_KEY, WriteOp.importKey EXECUTION_KEY,
      WriteOp.setValue SAFETY_DATA (Value.safetyData (SafetyData.new 1 0 0 none)),
      WriteOp.setValue OWNER_ACCOUNT (Value.string ((⟨5⟩ : Author).canonical)),
      WriteOp.setValue WAYPOINT (Value.string ((⟨3⟩ : Waypoint).canonical)),
      WriteOp.setValue SAFETY_DATA
        (Value.safetyData (SafetyData.new 9 8 1 none))]⟩⟩

theorem kvGet_kvSet_same {α : Type} (l : List (String × α)) (name : String) (v : α) :
    kvGet (kvSet l name v) name = some v := by
  induction l with
  | nil => simp [kvGet, kvSet]
  | cons hd t ih =>
    obtain ⟨k, w⟩ := hd
    by_cases h : name = k
    · simp [kvGet, kvSet, h]
    · simp [kvGet, kvSet, h, ih]

theorem kvGet_kvSet_ne {α : Type} (l : List (String × α)) (name name' : String) (v : α)
    (h : name' ≠ name) : kvGet (kvSet l name v) name' = kvGet l name' := by
  induction l with
  | nil => simp [kvGet, kvSet, h]
  | cons hd t ih =>
    obtain ⟨k, w⟩ := hd
    by_cases hk : name = k
    · subst hk
      simp [kvGet, kvSet, h]
    · by_cases hk' : name' = k
      · simp [kvGet, kvSet, hk, hk']
      · simp [kvGet, kvSet, hk, hk', ih]

theorem charToDigit_digitChr {d : Nat} (h : d < 10) :
    charToDigit (digitChr d) = some d := by
  interval_cases d <;> decide

theorem parseDigitsAux_append (l₁ l₂ : List Char) (acc : Nat) :
    parseDigitsAux (l₁ ++ l₂) acc =
      match parseDigitsAux l₁ acc with
      | some a => parseDigitsAux l₂ a
      | none => none := by
  induction l₁ generalizing acc with
  | nil => simp [parseDigitsAux]
  | cons c cs ih =>
    simp only [List.cons_append, parseDigitsAux]
    cases charToDigit c with
    | some d => exact ih (acc * 10 + d)
    | none => rfl

theorem parseDigitsAux_toDecimalAux (fuel : Nat) :
    ∀ n acc, n ≤ fuel →
      parseDigitsAux (toDecimalAux fuel n) acc =
        some (acc * 10 ^ (toDecimalAux fuel n).length + n) := by
  induction fuel with
  | zero =>
    intro n acc hn
    have : n = 0 := Nat.le_zero.mp hn
    subst this
    simp [toDecimalAux, parseDigitsAux]
  | succ f ih =>
    intro n acc hn
    by_cases h0 : n = 0
    · subst h0
      simp [toDecimalAux, parseDigitsAux]
    · have hdiv : n / 10 ≤ f := by
        have h1 : n / 10 < n := Nat.div_lt_self (Nat.pos_of_ne_zero h0) (by omega)
        omega
      have hmod : n % 10 < 10 := Nat.mod_lt _ (by omega)
      simp only [toDecimalAux, if_neg h0]
      rw [parseDigitsAux_append, ih (n / 10) acc hdiv]
      simp only [parseDigitsAux, charToDigit_digitChr hmod]
      rw [List.length_append]
      simp only [List.length_singleton]
      congr 1
      have : 10 ^ ((toDecimalAux f (n / 10)).length + 1) =
          10 ^ (toDecimalAux f (n / 10)).length * 10 := by
        rw [Nat.pow_succ]
      rw [this]
      have hnm : n / 10 * 10 + n % 10 = n := by omega
      ring_nf
      omega

theorem toDecimalAux_ne_nil (fuel n : Nat) (h0 : n ≠ 0) (hn : n ≤ fuel) :
    toDecimalAux fuel n ≠ [] := by
  cases fuel with
  | zero => omega
  | succ f =>
    simp only [toDecimalAux, if_neg h0]
    simp

/-- Round trip of the modelled canonical decimal encoding. -/
theorem parseDecimal_natToDecimal (n : Nat) :
    parseDecimal (natToDecimal n) = some n := by
  by_cases h0 : n = 0
  · subst h0
    decide
  · have hne : toDecimalAux (n + 1) n ≠ [] :=
      toDecimalAux_ne_nil (n + 1) n h0 (by omega)
    simp only [natToDecimal, if_neg h0, parseDecimal]
    cases hl : toDecimalAux (n + 1) n with
    | nil => exact absurd hl hne
    | cons c cs =>
      have := parseDigitsAux_toDecimalAux (n + 1) n 0 (by omega)
      rw [hl] at this
      simpa using this

theorem Author.fromStr_canonical (a : Author) :
    Author.fromStr a.canonical = some a := by
  simp [Author.fromStr, Author.canonical, parseDecimal_natToDecimal]

theorem Waypoint.from_str_canonical (w : Waypoint) :
    Waypoint.from_str w.canonical = some w := by
  simp [Waypoint.from_str, Waypoint.canonical, parseDecimal_natToDecimal]

theorem Storage.get_set_same {s s' : Storage} {name : String} {v : Value}
    (h : s.set name v = .ok s') : s'.get name = .ok ⟨v⟩ := by
  induction s generalizing s' with
  | inMemoryStorage m =>
    simp only [Storage.set, Except.ok.injEq] at h
    subst h
    simp [Storage.get, KVState.get, KVState.set, kvGet_kvSet_same]
  | remoteStorage available m =>
    by_cases ha : available = true
    · subst ha
      simp only [Storage.set, if_true, Except.ok.injEq] at h
      subst h
      simp [Storage.get, KVState.get, KVState.set, kvGet_kvSet_same]
    · simp [Storage.set, ha] at h
  | cachedStorage inner cache ih =>
    simp only [Storage.set] at h
    cases hi : inner.set name v with
    | ok inner' =>
      rw [hi] at h
      simp only [Except.map, Except.ok.injEq] at h
      subst h
      simp [Storage.get, kvGet_kvSet_same]
    | error e =>
      rw [hi] at h
      simp [Except.map] at h

theorem Storage.get_set_ne {s s' : Storage} {name name' : String} {v : Value}
    (h : s.set name v = .ok s') (hne : name' ≠ name) :
    s'.get name' = s.get name' := by
  induction s generalizing s' with
  | inMemoryStorage m =>
    simp only [Storage.set, Except.ok.injEq] at h
    subst h
    simp [Storage.get, KVState.get, KVState.set, kvGet_kvSet_ne _ _ _ _ hne]
  | remoteStorage available m =>
    by_cases ha : available = true
    · subst ha
      simp only [Storage.set, if_true, Except.ok.injEq] at h
      subst h
      simp [Storage.get, KVState.get, KVState.set, kvGet_kvSet_ne _ _ _ _ hne]
    · simp [Storage.set, ha] at h
  | cachedStorage inner cache ih =>
    simp only [Storage.set] at h
    cases hi : inner.set name v with
    | ok inner' =>
      rw [hi] at h
      simp only [Except.map, Except.ok.injEq] at h
      subst h
      simp only [Storage.get, kvGet_kvSet_ne _ _ _ _ hne]
      cases kvGet cache name' with
      | some w => rfl
      | none => exact ih hi
    | error e =>
      rw [hi] at h
      simp [Except.map] at h

theorem Storage.get_importPrivateKey {s s' : Storage} {kname name : String}
    {k : Ed25519PrivateKey} (h : s.importPrivateKey kname k = .ok s') :
    s'.get name = s.get name := by
  induction s generalizing s' with
  | inMemoryStorage m =>
    simp only [Storage.importPrivateKey, KVState.importPrivateKey] at h
    cases hk : kvGet m.keys kname with
    | some w => rw [hk] at h; simp [Except.map] at h
    | none =>
      rw [hk] at h
      simp only [Except.map, Except.ok.injEq] at h
      subst h
      simp [Storage.get, KVState.get]
  | remoteStorage available m =>
    by_cases ha : available = true
    · subst ha
      simp only [Storage.importPrivateKey, KVState.importPrivateKey, if_true] at h
      cases hk : kvGet m.keys kname with
      | some w => rw [hk] at h; simp [Except.map] at h
      | none =>
        rw [hk] at h
        simp only [Except.map, Except.ok.injEq] at h
        subst h
        simp [Storage.get, KVState.get]
    · simp [Storage.importPrivateKey, ha] at h
  | cachedStorage inner cache ih =>
    simp only [Storage.importPrivateKey] at h
    cases hi : inner.importPrivateKey kname k with
    | ok inner' =>
      rw [hi] at h
      simp only [Except.map, Except.ok.injEq] at h
      subst h
      simp only [Storage.get]
      cases kvGet cache name with
      | some w => rfl
      | none => exact ih hi
    | error e =>
      rw [hi] at h
      simp [Except.map] at h

theorem exceptBind_ok {α β : Type} (a : α) (f : α → Except Error β) :
    (Except.ok a >>= f) = f a := rfl

theorem exceptBind_error {α β : Type} (e : Error) (f : α → Except Error β) :
    ((Except.error e : Except Error α) >>= f) = Except.error e := rfl

theorem exceptPure_eq_ok {α : Type} (a : α) :
    (pure a : Except Error α) = Except.ok a := rfl

/-- When the consensus-key import succeeds, `initialise_` proceeds with the
full write sequence. -/
theorem initialise_of_import_ok {s s₁ : Storage} {a : Author}
    {ck ek : Ed25519PrivateKey} {w : Waypoint}
    (h1 : s.importPrivateKey CONSENSUS_KEY ck = .ok s₁) :
    PersistentSafetyStorage.initialise_ s a ck ek w = do
      let s₂ ← s₁.importPrivateKey EXECUTION_KEY ek
      let s₃ ← s₂.set SAFETY_DATA (Value.safetyData (SafetyData.new 1 0 0 none))
      let s₄ ← s₃.set OWNER_ACCOUNT (Value.string a.canonical)
      let s₅ ← s₄.set WAYPOINT (Value.string w.canonical)
      return s₅ := by
  unfold PersistentSafetyStorage.initialise_
  rw [h1]

/-- A consensus-key import that fails with the distinguished error short
circuits `initialise_` into a successful no-op. -/
theorem initialise_of_keyAlreadyExists {s : Storage} {a : Author}
    {ck ek : Ed25519PrivateKey} {w : Waypoint} {nm : String}
    (h : s.importPrivateKey CONSENSUS_KEY ck = .error (.keyAlreadyExists nm)) :
    PersistentSafetyStorage.initialise_ s a ck ek w = .ok s := by
  unfold PersistentSafetyStorage.initialise_
  rw [h]

/-- After a successful non-shortcut initialization, the three value records
read back as the defaults written. -/
theorem initialise_reads {s s₁ : Storage} {a : Author}
    {ck ek : Ed25519PrivateKey} {w : Waypoint} {p : PersistentSafetyStorage}
    (h1 : s.importPrivateKey CONSENSUS_KEY ck = .ok s₁)
    (h2 : PersistentSafetyStorage.initialise s a ck ek w = some p) :
    p.safety_data = .ok (SafetyData.new 1 0 0 none) ∧
      p.author = .ok a ∧ p.waypoint = .ok w := by
  rw [PersistentSafetyStorage.initialise, initialise_of_import_ok h1] at h2
  cases hek : s₁.importPrivateKey EXECUTION_KEY ek with
  | error e => rw [hek] at h2; simp [exceptBind_error] at h2
  | ok s₂ =>
    rw [hek, exceptBind_ok] at h2
    cases hsd : s₂.set SAFETY_DATA (Value.safetyData (SafetyData.new 1 0 0 none)) with
    | error e => rw [hsd] at h2; simp [exceptBind_error] at h2
    | ok s₃ =>
      rw [hsd, exceptBind_ok] at h2
      cases hoa : s₃.set OWNER_ACCOUNT (Value.string a.canonical) with
      | error e => rw [hoa] at h2; simp [exceptBind_error] at h2
      | ok s₄ =>
        rw [hoa, exceptBind_ok] at h2
        cases hwp : s₄.set WAYPOINT (Value.string w.canonical) with
        | error e => rw [hwp] at h2; simp [exceptBind_error] at h2
        | ok s₅ =>
          rw [hwp, exceptBind_ok, exceptPure_eq_ok] at h2
          simp only [Option.some.injEq] at h2
          have hp : p = ⟨s₅⟩ := h2.symm
          subst hp
          refine ⟨?_, ?_, ?_⟩
          · have e1 : s₅.get SAFETY_DATA = s₄.get SAFETY_DATA :=
              Storage.get_set_ne hwp (by decide)
            have e2 : s₄.get SAFETY_DATA = s₃.get SAFETY_DATA :=
              Storage.get_set_ne hoa (by decide)
            have e3 : s₃.get SAFETY_DATA =
                .ok ⟨Value.safetyData (SafetyData.new 1 0 0 none)⟩ :=
              Storage.get_set_same hsd
            simp only [PersistentSafetyStorage.safety_data, e1, e2, e3]
            rfl
          · have e1 : s₅.get OWNER_ACCOUNT = s₄.get OWNER_ACCOUNT :=
              Storage.get_set_ne hwp (by decide)
            have e2 : s₄.get OWNER_ACCOUNT = .ok ⟨Value.string a.canonical⟩ :=
              Storage.get_set_same hoa
            simp only [PersistentSafetyStorage.author, e1, e2, exceptBind_ok,
              Value.string?, Author.fromStr_canonical]
          · have e1 : s₅.get WAYPOINT = .ok ⟨Value.string w.canonical⟩ :=
              Storage.get_set_same hwp
            simp only [PersistentSafetyStorage.waypoint, e1, Except.bind,
              exceptBind_ok, Value.string?, Waypoint.from_str_canonical]

theorem importPrivateKey_freshStore (ck : Ed25519PrivateKey) :
    freshStore.importPrivateKey CONSENSUS_KEY ck =
      .ok (Storage.inMemoryStorage
        ⟨[], [(CONSENSUS_KEY, ck)], [WriteOp.importKey CONSENSUS_KEY]⟩) := rfl

theorem initialise_freshStore (a : Author) (ck ek : Ed25519PrivateKey)
    (w : Waypoint) :
    PersistentSafetyStorage.initialise freshStore a ck ek w =
      some (freshInit a ck ek w) := rfl

/-- C1: if, during initialization, importing the consensus private key
fails with the distinguished key-already-exists error, `initialize` returns
successfully and performs no further writes — the resulting storage wraps
the pre-re-init store unchanged, so the execution key, safety data, owner
account and waypoint records all equal their pre-re-init values. -/
theorem claim_C1_reinit_is_noop (s : Storage) (a : Author)
    (ck ek : Ed25519PrivateKey) (w : Waypoint) (nm : String)
    (h : s.importPrivateKey CONSENSUS_KEY ck = .error (.keyAlreadyExists nm)) :
    PersistentSafetyStorage.initialise s a ck ek w =
      some (PersistentSafetyStorage.new s) := by
  rw [PersistentSafetyStorage.initialise, initialise_of_keyAlreadyExists h]
  rfl

theorem claim_C1_witness :
    preInitStore.importPrivateKey CONSENSUS_KEY ⟨1⟩ =
        .error (.keyAlreadyExists CONSENSUS_KEY) ∧
      PersistentSafetyStorage.initialise preInitStore ⟨5⟩ ⟨1⟩ ⟨2⟩ ⟨3⟩ =
        some (PersistentSafetyStorage.new preInitStore) :=
  ⟨rfl, claim_C1_reinit_is_noop preInitStore ⟨5⟩ ⟨1⟩ ⟨2⟩ ⟨3⟩ CONSENSUS_KEY rfl⟩

/-- C2: after a successful non-shortcut initialization (the consensus key
was imported, so the store was fresh), `safety_data()` returns exactly
`{epoch: 1, last_voted_round: 0, preferred_round: 0, last_vote: none}`. -/
theorem claim_C2_fresh_defaults (s s₁ : Storage) (a : Author)
    (ck ek : Ed25519PrivateKey) (w : Waypoint) (p : PersistentSafetyStorage)
    (h1 : s.importPrivateKey CONSENSUS_KEY ck = .ok s₁)
    (h2 : PersistentSafetyStorage.initialise s a ck ek w = some p) :
    p.safety_data = .ok (SafetyData.new 1 0 0 none) :=
  (initialise_reads h1 h2).1

theorem claim_C2_witness :
    freshStore.importPrivateKey CONSENSUS_KEY ⟨1⟩ =
        .ok (Storage.inMemoryStorage
          ⟨[], [(CONSENSUS_KEY, ⟨1⟩)], [WriteOp.importKey CONSENSUS_KEY]⟩) ∧
      PersistentSafetyStorage.initialise freshStore ⟨5⟩ ⟨1⟩ ⟨2⟩ ⟨3⟩ =
        some (freshInit ⟨5⟩ ⟨1⟩ ⟨2⟩ ⟨3⟩) ∧
      (freshInit ⟨5⟩ ⟨1⟩ ⟨2⟩ ⟨3⟩).safety_data = .ok (SafetyData.new 1 0 0 none) :=
  ⟨rfl, rfl, claim_C2_fresh_defaults freshStore _ ⟨5⟩ ⟨1⟩ ⟨2⟩ ⟨3⟩ _ rfl rfl⟩

/-- C3: for every safety record `d`, a successful `set_safety_data(d)`
followed by `safety_data()` on the resulting storage returns `Ok(d)`. -/
theorem claim_C3_safety_data_roundtrip (p : PersistentSafetyStorage)
    (c : Counters) (d : SafetyData) (c' : Counters)
    (p' : PersistentSafetyStorage)
    (h : p.set_safety_data c d = (c', .ok p')) :
    p'.safety_data = .ok d := by
  unfold PersistentSafetyStorage.set_safety_data at h
  cases hs : p.internal_store.set SAFETY_DATA (Value.safetyData d) with
  | ok st =>
    rw [hs] at h
    simp only [Prod.mk.injEq, Except.ok.injEq] at h
    have hp : p' = ⟨st⟩ := h.2.symm
    subst hp
    simp only [PersistentSafetyStorage.safety_data, Storage.get_set_same hs]
    rfl
  | error e =>
    rw [hs] at h
    simp only [Prod.mk.injEq] at h
    exact absurd h.2 (by simp)

theorem claim_C3_witness :
    (freshInit ⟨5⟩ ⟨1⟩ ⟨2⟩ ⟨3⟩).set_safety_data ⟨[]⟩ (SafetyData.new 9 8 1 none) =
        (⟨[("epoch", 9), ("last_voted_round", 8), ("preferred_round", 1)]⟩,
          .ok ⟨Storage.inMemoryStorage
            ⟨[(SAFETY_DATA, Value.safetyData (SafetyData.new 9 8 1 none)),
              (OWNER_ACCOUNT, Value.string ((⟨5⟩ : Author).canonical)),
              (WAYPOINT, Value.string ((⟨3⟩ : Waypoint).canonical))],
             [(CONSENSUS_KEY, ⟨1⟩), (EXECUTION_KEY, ⟨2⟩)],
             [WriteOp.importKey CONSENSUS_KEY, WriteOp.importKey EXECUTION_KEY,
              WriteOp.setValue SAFETY_DATA
                (Value.safetyData (SafetyData.new 1 0 0 none)),
              WriteOp.setValue OWNER_ACCOUNT
                (Value.string ((⟨5⟩ : Author).canonical)),
              WriteOp.setValue WAYPOINT
                (Value.string ((⟨3⟩ : Waypoint).canonical)),
              WriteOp.setValue SAFETY_DATA
                (Value.safetyData (SafetyData.new 9 8 1 none))]⟩⟩) ∧
      PersistentSafetyStorage.safety_data
          ⟨Storage.inMemoryStorage
            ⟨[(SAFETY_DATA, Value.safetyData (SafetyData.new 9 8 1 none)),
              (OWNER_ACCOUNT, Value.string ((⟨5⟩ : Author).canonical)),
              (WAYPOINT, Value.string ((⟨3⟩ : Waypoint).canonical))],
             [(CONSENSUS_KEY, ⟨1⟩), (EXECUTION_KEY, ⟨2⟩)],
             [WriteOp.importKey CONSENSUS_KEY, WriteOp.importKey EXECUTION_KEY,
              WriteOp.setValue SAFETY_DATA
                (Value.safetyData (SafetyData.new 1 0 0 none)),
              WriteOp.setValue OWNER_ACCOUNT
                (Value.string ((⟨5⟩ : Author).canonical)),
              WriteOp.setValue WAYPOINT
                (Value.string ((⟨3⟩ : Waypoint).canonical)),
              WriteOp.setValue SAFETY_DATA
                (Value.safetyData (SafetyData.new 9 8 1 none))]⟩⟩ =
        .ok (SafetyData.new 9 8 1 none) :=
  ⟨rfl, claim_C3_safety_data_roundtrip (freshInit ⟨5⟩ ⟨1⟩ ⟨2⟩ ⟨3⟩) ⟨[]⟩
    (SafetyData.new 9 8 1 none) _ _ rfl⟩

/-- C4: for every waypoint `w`, a successful `set_waypoint(w)` followed by
`waypoint()` returns `Ok(w)`: the waypoint is stored as its canonical
string form and parsing that string back yields the original waypoint. -/
theorem claim_C4_waypoint_roundtrip (p p' : PersistentSafetyStorage)
    (w : Waypoint) (h : p.set_waypoint w = .ok p') :
    p'.waypoint = .ok w := by
  unfold PersistentSafetyStorage.set_waypoint at h
  cases hs : p.internal_store.set WAYPOINT (Value.string w.canonical) with
  | ok st =>
    rw [hs] at h
    simp only [Except.map, Except.ok.injEq] at h
    have hp : p' = ⟨st⟩ := h.symm
    subst hp
    simp only [PersistentSafetyStorage.waypoint, Storage.get_set_same hs,
      Except.bind, Value.string?, exceptBind_ok, Waypoint.from_str_canonical]
  | error e =>
    rw [hs] at h
    simp [Except.map] at h

theorem claim_C4_witness :
    (freshInit ⟨5⟩ ⟨1⟩ ⟨2⟩ ⟨3⟩).set_waypoint ⟨42⟩ =
        .ok ⟨Storage.inMemoryStorage
          ⟨[(SAFETY_DATA, Value.safetyData (SafetyData.new 1 0 0 none)),
            (OWNER_ACCOUNT, Value.string ((⟨5⟩ : Author).canonical)),
            (WAYPOINT, Value.string ((⟨42⟩ : Waypoint).canonical))],
           [(CONSENSUS_KEY, ⟨1⟩), (EXECUTION_KEY, ⟨2⟩)],
           [WriteOp.importKey CONSENSUS_KEY, WriteOp.importKey EXECUTION_KEY,
            WriteOp.setValue SAFETY_DATA
              (Value.safetyData (SafetyData.new 1 0 0 none)),
            WriteOp.setValue OWNER_ACCOUNT
              (Value.string ((⟨5⟩ : Author).canonical)),
            WriteOp.setValue WAYPOINT
              (Value.string ((⟨3⟩ : Waypoint).canonical)),
            WriteOp.setValue WAYPOINT
              (Value.string ((⟨42⟩ : Waypoint).canonical))]⟩⟩ ∧
      PersistentSafetyStorage.waypoint
          ⟨Storage.inMemoryStorage
            ⟨[(SAFETY_DATA, Value.safetyData (SafetyData.new 1 0 0 none)),
              (OWNER_ACCOUNT, Value.string ((⟨5⟩ : Author).canonical)),
              (WAYPOINT, Value.string ((⟨42⟩ : Waypoint).canonical))],
             [(CONSENSUS_KEY, ⟨1⟩), (EXECUTION_KEY, ⟨2⟩)],
             [WriteOp.importKey CONSENSUS_KEY, WriteOp.importKey EXECUTION_KEY,
              WriteOp.setValue SAFETY_DATA
                (Value.safetyData (SafetyData.new 1 0 0 none)),
              WriteOp.setValue OWNER_ACCOUNT
                (Value.string ((⟨5⟩ : Author).canonical)),
              WriteOp.setValue WAYPOINT
                (Value.string ((⟨3⟩ : Waypoint).canonical)),
              WriteOp.setValue WAYPOINT
                (Value.string ((⟨42⟩ : Waypoint).canonical))]⟩⟩ =
        .ok ⟨42⟩ :=
  ⟨rfl, claim_C4_waypoint_roundtrip (freshInit ⟨5⟩ ⟨1⟩ ⟨2⟩ ⟨3⟩) _ ⟨42⟩ rfl⟩

/-- C5: `into_cached` is idempotent — applied to a storage whose internal
store is already a `CachedStorage` it returns that same single cache layer
unchanged, so `into_cached` applied twice equals `into_cached` applied
once. -/
theorem claim_C5_into_cached_idempotent :
    (∀ (inner : Storage) (cache : List (String × Value)),
        PersistentSafetyStorage.into_cached ⟨Storage.cachedStorage inner cache⟩ =
          ⟨Storage.cachedStorage inner cache⟩) ∧
      ∀ p : PersistentSafetyStorage,
        p.into_cached.into_cached = p.into_cached := by
  constructor
  · intro inner cache
    rfl
  · intro p
    obtain ⟨st⟩ := p
    cases st <;> rfl

/-- C6: on a fresh store the initialization writes happen in the exact
order consensus key, execution key, safety data, owner account, waypoint;
an `initialise_` failure aborts `initialise` (no error is returned to the
caller); and the key-already-exists case of the first import is the only
failure converted into success. -/
theorem claim_C6_write_order_and_fatality (a : Author)
    (ck ek : Ed25519PrivateKey) (w : Waypoint) :
    (∃ st, PersistentSafetyStorage.initialise_ freshStore a ck ek w = .ok st ∧
        st.trace =
          [WriteOp.importKey CONSENSUS_KEY, WriteOp.importKey EXECUTION_KEY,
           WriteOp.setValue SAFETY_DATA
             (Value.safetyData (SafetyData.new 1 0 0 none)),
           WriteOp.setValue OWNER_ACCOUNT (Value.string a.canonical),
           WriteOp.setValue WAYPOINT (Value.string w.canonical)]) ∧
      (∀ (s : Storage) (e : Error),
          PersistentSafetyStorage.initialise_ s a ck ek w = .error e →
            PersistentSafetyStorage.initialise s a ck ek w = none) ∧
      ∀ (s : Storage) (nm : String),
          s.importPrivateKey CONSENSUS_KEY ck =
              .error (.keyAlreadyExists nm) →
            PersistentSafetyStorage.initialise s a ck ek w =
              some (PersistentSafetyStorage.new s) := by
  refine ⟨⟨(freshInit a ck ek w).internal_store, rfl, rfl⟩, ?_, ?_⟩
  · intro s e h
    rw [PersistentSafetyStorage.initialise, h]
  · intro s nm h
    rw [PersistentSafetyStorage.initialise, initialise_of_keyAlreadyExists h]
    rfl

theorem claim_C6_witness :
    (∃ st, PersistentSafetyStorage.initialise_ freshStore ⟨5⟩ ⟨1⟩ ⟨2⟩ ⟨3⟩ =
          .ok st ∧
        st.trace =
          [WriteOp.importKey CONSENSUS_KEY, WriteOp.importKey EXECUTION_KEY,
           WriteOp.setValue SAFETY_DATA
             (Value.safetyData (SafetyData.new 1 0 0 none)),
           WriteOp.setValue OWNER_ACCOUNT
             (Value.string ((⟨5⟩ : Author).canonical)),
           WriteOp.setValue WAYPOINT
             (Value.string ((⟨3⟩ : Waypoint).canonical))]) ∧
      PersistentSafetyStorage.initialise (Storage.remoteStorage false KVState.new)
          ⟨5⟩ ⟨1⟩ ⟨2⟩ ⟨3⟩ = none ∧
      PersistentSafetyStorage.initialise preInitStore ⟨5⟩ ⟨1⟩ ⟨2⟩ ⟨3⟩ =
        some (PersistentSafetyStorage.new preInitStore) :=
  ⟨(claim_C6_write_order_and_fatality ⟨5⟩ ⟨1⟩ ⟨2⟩ ⟨3⟩).1,
   (claim_C6_write_order_and_fatality ⟨5⟩ ⟨1⟩ ⟨2⟩ ⟨3⟩).2.1
     (Storage.remoteStorage false KVState.new) .backendError rfl,
   (claim_C6_write_order_and_fatality ⟨5⟩ ⟨1⟩ ⟨2⟩ ⟨3⟩).2.2
     preInitStore CONSENSUS_KEY rfl⟩

/-- C7 counterexample: on a store whose write fails, `set_safety_data`
returns the error, but the module has already performed an observable side
effect of its own — the metrics counters are updated before the write is
attempted, so they differ from their pre-call state even on failure. -/
theorem claim_C7_counterexample :
    (unavailableStore.set_safety_data ⟨[]⟩ (SafetyData.new 9 8 1 none)).2 =
        .error .backendError ∧
      (unavailableStore.set_safety_data ⟨[]⟩ (SafetyData.new 9 8 1 none)).1 ≠
        (⟨[]⟩ : Counters) := by
  constructor
  · rfl
  · decide

/-- C7 (amended): if the store write inside `set_safety_data` fails, the
error is returned as-is (no retry) and the store gains no new state; the
single module-level side effect on failure is the metrics report of the
new epoch/round values, which happens unconditionally before the write
attempt. -/
theorem claim_C7_error_returned_with_counter_update
    (p : PersistentSafetyStorage) (c : Counters) (d : SafetyData) (e : Error)
    (h : p.internal_store.set SAFETY_DATA (Value.safetyData d) = .error e) :
    p.set_safety_data c d =
      (((c.set_state "epoch" (i64OfU64 d.epoch)).set_state "last_voted_round"
            (i64OfU64 d.last_voted_round)).set_state "preferred_round"
          (i64OfU64 d.preferred_round),
        .error e) := by
  unfold PersistentSafetyStorage.set_safety_data
  rw [h]

theorem claim_C7_witness :
    unavailableStore.internal_store.set SAFETY_DATA
        (Value.safetyData (SafetyData.new 9 8 1 none)) =
        .error .backendError ∧
      unavailableStore.set_safety_data ⟨[]⟩ (SafetyData.new 9 8 1 none) =
        (⟨[("epoch", 9), ("last_voted_round", 8), ("preferred_round", 1)]⟩,
          .error .backendError) :=
  ⟨rfl, claim_C7_error_returned_with_counter_update unavailableStore ⟨[]⟩
    (SafetyData.new 9 8 1 none) .backendError rfl⟩

/-- C8: when the store reports an error for a record (in particular the
not-found error of an uninitialized store), each accessor propagates that
very error to the caller — no accessor substitutes a default value. -/
theorem claim_C8_missing_record_propagates (p : PersistentSafetyStorage)
    (e₁ e₂ e₃ : Error)
    (h₁ : p.internal_store.get SAFETY_DATA = .error e₁)
    (h₂ : p.internal_store.get OWNER_ACCOUNT = .error e₂)
    (h₃ : p.internal_store.get WAYPOINT = .error e₃) :
    p.safety_data = .error e₁ ∧ p.author = .error e₂ ∧
      p.waypoint = .error e₃ := by
  refine ⟨?_, ?_, ?_⟩
  · simp only [PersistentSafetyStorage.safety_data, h₁]
    rfl
  · simp only [PersistentSafetyStorage.author, h₂, exceptBind_error]
  · simp only [PersistentSafetyStorage.waypoint, h₃, Except.bind,
      exceptBind_error]

theorem claim_C8_witness :
    (PersistentSafetyStorage.new freshStore).internal_store.get SAFETY_DATA =
        .error (.keyNotSet SAFETY_DATA) ∧
      (PersistentSafetyStorage.new freshStore).internal_store.get OWNER_ACCOUNT =
        .error (.keyNotSet OWNER_ACCOUNT) ∧
      (PersistentSafetyStorage.new freshStore).internal_store.get WAYPOINT =
        .error (.keyNotSet WAYPOINT) ∧
      ((PersistentSafetyStorage.new freshStore).safety_data =
          .error (.keyNotSet SAFETY_DATA) ∧
        (PersistentSafetyStorage.new freshStore).author =
          .error (.keyNotSet OWNER_ACCOUNT) ∧
        (PersistentSafetyStorage.new freshStore).waypoint =
          .error (.keyNotSet WAYPOINT)) :=
  ⟨rfl, rfl, rfl,
   claim_C8_missing_record_propagates (PersistentSafetyStorage.new freshStore)
     (.keyNotSet SAFETY_DATA) (.keyNotSet OWNER_ACCOUNT) (.keyNotSet WAYPOINT)
     rfl rfl rfl⟩

/-- C9: on a storage initialized with author `a` and waypoint `w`, a
successful `set_safety_data({9, 8, 1, none})` changes only the safety
record: `safety_data()` reads back exactly `{9, 8, 1, none}` while
`author()` still returns `a` and `waypoint()` still returns `w`. -/
theorem claim_C9_set_safety_data_frame (s s₁ : Storage) (a : Author)
    (ck ek : Ed25519PrivateKey) (w : Waypoint)
    (p p' : PersistentSafetyStorage) (c c' : Counters)
    (h1 : s.importPrivateKey CONSENSUS_KEY ck = .ok s₁)
    (h2 : PersistentSafetyStorage.initialise s a ck ek w = some p)
    (h3 : p.set_safety_data c (SafetyData.new 9 8 1 none) = (c', .ok p')) :
    p'.safety_data = .ok (SafetyData.new 9 8 1 none) ∧
      p'.author = .ok a ∧ p'.waypoint = .ok w := by
  obtain ⟨hsd, ha, hw⟩ := initialise_reads h1 h2
  unfold PersistentSafetyStorage.set_safety_data at h3
  cases hs : p.internal_store.set SAFETY_DATA
      (Value.safetyData (SafetyData.new 9 8 1 none)) with
  | ok st =>
    rw [hs] at h3
    simp only [Prod.mk.injEq, Except.ok.injEq] at h3
    have hp : p' = ⟨st⟩ := h3.2.symm
    subst hp
    refine ⟨?_, ?_, ?_⟩
    · simp only [PersistentSafetyStorage.safety_data, Storage.get_set_same hs]
      rfl
    · have hget : st.get OWNER_ACCOUNT = p.internal_store.get OWNER_ACCOUNT :=
        Storage.get_set_ne hs (by decide)
      unfold PersistentSafetyStorage.author at ha ⊢
      rw [hget]
      exact ha
    · have hget : st.get WAYPOINT = p.internal_store.get WAYPOINT :=
        Storage.get_set_ne hs (by decide)
      unfold PersistentSafetyStorage.waypoint at hw ⊢
      rw [hget]
      exact hw
  | error e =>
    rw [hs] at h3
    simp only [Prod.mk.injEq] at h3
    exact absurd h3.2 (by simp)

theorem claim_C9_witness :
    freshStore.importPrivateKey CONSENSUS_KEY ⟨1⟩ =
        .ok (Storage.inMemoryStorage
          ⟨[], [(CONSENSUS_KEY, ⟨1⟩)], [WriteOp.importKey CONSENSUS_KEY]⟩) ∧
      PersistentSafetyStorage.initialise freshStore ⟨5⟩ ⟨1⟩ ⟨2⟩ ⟨3⟩ =
        some (freshInit ⟨5⟩ ⟨1⟩ ⟨2⟩ ⟨3⟩) ∧
      (freshInit ⟨5⟩ ⟨1⟩ ⟨2⟩ ⟨3⟩).set_safety_data ⟨[]⟩ (SafetyData.new 9 8 1 none) =
        (⟨[("epoch", 9), ("last_voted_round", 8), ("preferred_round", 1)]⟩,
          .ok afterSafetySet) ∧
      (afterSafetySet.safety_data = .ok (SafetyData.new 9 8 1 none) ∧
        afterSafetySet.author = .ok ⟨5⟩ ∧
        afterSafetySet.waypoint = .ok ⟨3⟩) :=
  ⟨rfl, rfl, rfl,
   claim_C9_set_safety_data_frame freshStore _ ⟨5⟩ ⟨1⟩ ⟨2⟩ ⟨3⟩
     (freshInit ⟨5⟩ ⟨1⟩ ⟨2⟩ ⟨3⟩) afterSafetySet ⟨[]⟩ _ rfl rfl rfl⟩

/-- C10: `in_memory(consensus_key, execution_key)` builds storage over a
fresh in-memory backend initialized with the sampled (random, not
caller-chosen) author and the default waypoint: construction succeeds,
`waypoint()` returns `Waypoint::default()` and `author()` returns the
sampled author. -/
theorem claim_C10_in_memory_defaults (a : Author)
    (ck ek : Ed25519PrivateKey) :
    ∃ p, PersistentSafetyStorage.in_memory a ck ek = some p ∧
      p.waypoint = .ok Waypoint.default ∧ p.author = .ok a := by
  refine ⟨freshInit a ck ek Waypoint.default, rfl, ?_, ?_⟩
  · exact (initialise_reads (importPrivateKey_freshStore ck)
      (initialise_freshStore a ck ek Waypoint.default)).2.2
  · exact (initialise_reads (importPrivateKey_freshStore ck)
      (initialise_freshStore a ck ek Waypoint.default)).2.1

end SafetyRules
